import Mathlib

/-!
Shallow embedding of `src/openpifpaf/decoder/factory.py`.

Thresholds and strides are Python floats in the source; they are embedded
as rationals (ℚ), which is exact for every literal and comparison the code
performs (equality with 0.0, `>=` comparisons, products with 1.5 and 3.0).
Fallible code (Python `assert`, `raise`) is embedded as `Except`.
-/

namespace OpenPifPaf

/-- The argument namespace produced by the CLI (`cli` in factory.py plus the
external `batch_size` / `debug` / `multi_scale` attributes read by
`configure`).  `keypoint_threshold` and `decoder_workers` default to `None`
in the CLI, hence `Option`.  `batch_size` is read with
`getattr(args, 'batch_size', 1)`, so it is `Option` as well (missing
attribute = `none`). -/
structure Args where
  seed_threshold : ℚ
  instance_threshold : ℚ
  keypoint_threshold : Option ℚ
  decoder_workers : Option Int
  dense_connections : Bool
  dense_coupling : ℚ
  paf_seeds : Bool
  force_complete_pose : Bool
  profile_decoder : Bool
  pif_th : ℚ
  paf_th : ℚ
  connection_method : String
  greedy : Bool
  batch_size : Option Int
  debug : Bool
  deriving DecidableEq, Repr

/-- The process-wide class-level configuration that `configure` mutates:
class attributes of `CifCaf`, `PafsDijkstra`, `PifHr` and
`generator.Frontier` (factory.py lines 66-94). -/
structure DecoderConfig where
  cifcaf_paf_th : ℚ
  cifcaf_connection_method : String
  cifcaf_force_complete : Bool
  pafs_dijkstra_paf_th : ℚ
  pafs_dijkstra_connection_method : String
  pafs_dijkstra_force_complete : Bool
  pifhr_v_threshold : ℚ
  frontier_keypoint_threshold : ℚ
  frontier_greedy : Bool
  deriving DecidableEq, Repr

/-- Errors raised by `configure` (Python `assert` statements, lines 88-90). -/
inductive ConfigError
  | assertionFailed (msg : String)
  deriving DecidableEq, Repr

/-- factory.py lines 84-85: the default-selection rule for the keypoint
threshold.  `0.001 if not args.force_complete_pose else 0.0` when the
threshold is `None`; an explicitly supplied value is kept. -/
def resolved_keypoint_threshold (args : Args) : ℚ :=
  match args.keypoint_threshold with
  | none => if !args.force_complete_pose then mkRat 1 1000 else 0
  | some v => v

/-- factory.py `configure` (lines 66-100).  Returns the updated argument
namespace and the updated class-level configuration, or the failed
assertion.  `visualizer_configure(args)` (line 81) configures debug
visualizer module state outside the decoder and does not touch any state
modelled here.  In Python the class attributes are assigned before the
asserts run, so on assertion failure the class state has already changed;
this embedding returns only the error in that case, which is all the
claims observe. -/
def configure (args : Args) (cfg : DecoderConfig) :
    Except ConfigError (Args × DecoderConfig) :=
  -- lines 68-78: configure CifCaf, PafsDijkstra, PifHr
  let cfg1 : DecoderConfig :=
    { cfg with
      cifcaf_paf_th := args.paf_th
      cifcaf_connection_method := args.connection_method
      cifcaf_force_complete := args.force_complete_pose
      pafs_dijkstra_paf_th := args.paf_th
      pafs_dijkstra_connection_method := args.connection_method
      pafs_dijkstra_force_complete := args.force_complete_pose
      pifhr_v_threshold := args.pif_th }
  -- lines 84-85: default value for the keypoint filter
  let kp := resolved_keypoint_threshold args
  let args1 := { args with keypoint_threshold := some kp }
  -- lines 88-89: if args.force_complete_pose: assert args.keypoint_threshold == 0.0
  if args1.force_complete_pose = true ∧ kp ≠ 0 then
    .error (.assertionFailed "args.keypoint_threshold == 0.0")
  -- line 90: assert args.seed_threshold >= args.keypoint_threshold
  else if args1.seed_threshold < kp then
    .error (.assertionFailed "args.seed_threshold >= args.keypoint_threshold")
  else
    -- lines 93-94: configure decoder generator
    let cfg2 := { cfg1 with
      frontier_keypoint_threshold := kp
      frontier_greedy := args1.greedy }
    -- lines 97-100: decoder workers
    let args2 :=
      if args1.decoder_workers = none ∧ 1 < args1.batch_size.getD 1 ∧
          args1.debug = false then
        { args1 with decoder_workers := args1.batch_size }
      else args1
    .ok (args2, cfg2)

/-- A decoder constructor argument that Python passes either as a scalar or
as a per-resolution list (stride, channel indices, scale/distance tables in
`factory_decode`, lines 179-210). -/
inductive Multi (α : Type)
  | single (a : α)
  | table (xs : List α)
  deriving DecidableEq, Repr

/-- Modelled from the spec: the read-only `SkeletonTopology` constants
`COCO_KEYPOINTS`, `COCO_PERSON_SKELETON` and
`DENSER_COCO_PERSON_CONNECTIONS` imported from `openpifpaf.data`, which is
not under src/.  The spec describes them only as the joint-type names, the
base edge list and "an enlarged, lower-weighted edge set added to the base
skeleton topology", so they are carried as an abstract parameter. -/
structure CocoData where
  keypoints : List String
  person_skeleton : List (Nat × Nat)
  denser_connections : List (Nat × Nat)
  deriving DecidableEq, Repr

/-- The slice of the model object that `factory_decode` reads:
`model.head_names` and `model.head_strides` (`head_strides[-1]` is the
base stride). -/
structure Model where
  head_names : List String
  head_strides : List ℚ
  deriving DecidableEq, Repr

/-- The keyword arguments of `factory_decode` (lines 131-137) that select
the decoder; the remaining `**kwargs` are passed through unread. -/
structure FactoryDecodeArgs where
  dense_coupling : ℚ := 0
  dense_connections : Bool := false
  paf_seeds : Bool := false
  multi_scale : Bool := false
  multi_scale_hflip : Bool := true
  deriving DecidableEq, Repr

/-- Errors of `factory_decode`.  The code raises a generic
`Exception('decoder unknown for head names: ...')` (line 243) and would
raise `IndexError` on `head_strides[-1]` with an empty stride list.
`unsupportedTopology` is modelled from the spec: the spec's
`UnsupportedTopology` error kind ("fatal, surfaced to caller at
configuration time"); it exists so claims about it can be stated, and no
code path of this embedding produces it. -/
inductive DecodeError
  | indexError
  | genericException (msg : String)
  | unsupportedTopology (msg : String)
  deriving DecidableEq, Repr

/-- The constructor arguments of `Pif(...)` (line 144). -/
structure PifDecoder where
  stride : ℚ
  head_index : Nat
  deriving DecidableEq, Repr

/-- The constructor arguments of the `CifCaf(...)` calls (lines 167-176,
218-229, 231-241).  `none` in an `Option` field means the keyword was not
supplied (or was supplied as Python `None`, for `confidence_scales` at
line 154 and `paf_max_distance` at line 184). -/
structure CifCafDecoder where
  stride : Multi ℚ
  pif_index : Multi Nat
  paf_index : Multi Nat
  pif_min_scale : Option (Multi ℚ) := none
  paf_min_distance : Option (Multi ℚ) := none
  paf_max_distance : Option (Multi (Option ℚ)) := none
  keypoints : List String
  skeleton : List (Nat × Nat)
  out_skeleton : Option (List (Nat × Nat)) := none
  confidence_scales : Option (List ℚ) := none
  deriving DecidableEq, Repr

/-- The constructor arguments of `PafsDijkstra(...)` (lines 158-166). -/
structure PafsDijkstraDecoder where
  stride : ℚ
  paf_index : Nat
  keypoints : List String
  skeleton : List (Nat × Nat)
  out_skeleton : List (Nat × Nat)
  confidence_scales : Option (List ℚ)
  deriving DecidableEq, Repr

/-- The decoder instance returned by `factory_decode`. -/
inductive Decoder
  | pif (p : PifDecoder)
  | cifCaf (c : CifCafDecoder)
  | pafsDijkstra (p : PafsDijkstraDecoder)
  deriving DecidableEq, Repr

/-- Lines 148-151 and 214-217: `[1.0 for _ in COCO_PERSON_SKELETON] +
[dense_coupling for _ in DENSER_COCO_PERSON_CONNECTIONS]`. -/
def dense_confidence_scales (d : CocoData) (dense_coupling : ℚ) : List ℚ :=
  d.person_skeleton.map (fun _ => (1 : ℚ)) ++
    d.denser_connections.map (fun _ => dense_coupling)

/-- The `('cif', 'caf', 'caf25')` branch of `factory_decode`
(lines 146-176); `s` is `model.head_strides[-1]`. -/
def decode_cifcaf_branch (d : CocoData) (a : FactoryDecodeArgs) (s : ℚ) :
    Decoder :=
  let confidence_scales : Option (List ℚ) :=
    if a.dense_connections then some (dense_confidence_scales d a.dense_coupling)
    else none
  let skeleton : List (Nat × Nat) :=
    if a.dense_connections then d.person_skeleton ++ d.denser_connections
    else d.person_skeleton
  if a.paf_seeds then
    .pafsDijkstra
      { stride := s
        paf_index := 1
        keypoints := d.keypoints
        skeleton := skeleton
        out_skeleton := d.person_skeleton
        confidence_scales := confidence_scales }
  else
    .cifCaf
      { stride := .single s
        pif_index := .single 0
        paf_index := .single 1
        keypoints := d.keypoints
        skeleton := skeleton
        out_skeleton := some d.person_skeleton
        confidence_scales := confidence_scales }

/-- The per-resolution parameter tables of the `('cif', 'paf', 'paf25')`
branch (lines 179-210): stride, pif channel indices, paf channel indices,
pif_min_scale, paf_min_distance, paf_max_distance.  Python list repetition
`xs * 2` is concatenation. -/
structure CifPafTables where
  stride : Multi ℚ
  pif_index : Multi Nat
  paf_index : Multi Nat
  pif_min_scale : Multi ℚ
  paf_min_distance : Multi ℚ
  paf_max_distance : Multi (Option ℚ)
  deriving DecidableEq, Repr

/-- Lines 179-210 of `factory_decode`; `base` is
`model.head_strides[-1]`. -/
def cifpaf_tables (a : FactoryDecodeArgs) (base : ℚ) : CifPafTables :=
  if a.multi_scale = true ∧ a.multi_scale_hflip = true then
    let resolutions : List ℚ := [1, 3/2, 2, 3, 5] ++ [1, 3/2, 2, 3, 5]
    let pif_min_scale : List ℚ := [0, 12, 16, 24, 40] ++ [0, 12, 16, 24, 40]
    { stride := .table (resolutions.map (fun r => base * r))
      pif_index :=
        if a.dense_connections = false then
          .table ((List.range 10).map (fun v => v * 3))
        else
          .table ((List.range 10).map (fun v => v * 2))
      paf_index :=
        if a.dense_connections = false then
          .table ((List.range 10).map (fun v => v * 3 + 1))
        else
          .table ((List.range 10).map (fun v => v * 2 + 1))
      pif_min_scale := .table pif_min_scale
      paf_min_distance := .table (pif_min_scale.map (fun v => v * 3))
      paf_max_distance := .table
        ([some 160, some 240, some 320, some 480, none] ++
         [some 160, some 240, some 320, some 480, none]) }
  else if a.multi_scale = true ∧ a.multi_scale_hflip = false then
    let resolutions : List ℚ := [1, 3/2, 2, 3, 5]
    let pif_min_scale : List ℚ := [0, 12, 16, 24, 40]
    { stride := .table (resolutions.map (fun r => base * r))
      pif_index :=
        if a.dense_connections = false then
          .table ((List.range 5).map (fun v => v * 3))
        else
          .table ((List.range 5).map (fun v => v * 2))
      paf_index :=
        if a.dense_connections = false then
          .table ((List.range 5).map (fun v => v * 3 + 1))
        else
          .table ((List.range 5).map (fun v => v * 2 + 1))
      pif_min_scale := .table pif_min_scale
      paf_min_distance := .table (pif_min_scale.map (fun v => v * 3))
      paf_max_distance := .table
        [some 160, some 240, some 320, some 480, none] }
  else
    { stride := .single base
      pif_index := .single 0
      paf_index := .single 1
      pif_min_scale := .single 0
      paf_min_distance := .single 0
      paf_max_distance := .single none }

/-- The `('cif', 'paf', 'paf25')` branch of `factory_decode`
(lines 178-241). -/
def decode_cifpaf_branch (d : CocoData) (a : FactoryDecodeArgs) (base : ℚ) :
    Decoder :=
  let t := cifpaf_tables a base
  if a.dense_connections then
    .cifCaf
      { stride := t.stride
        pif_index := t.pif_index
        paf_index := t.paf_index
        pif_min_scale := some t.pif_min_scale
        paf_min_distance := some t.paf_min_distance
        paf_max_distance := some t.paf_max_distance
        keypoints := d.keypoints
        skeleton := d.person_skeleton ++ d.denser_connections
        confidence_scales := some (dense_confidence_scales d a.dense_coupling) }
  else
    .cifCaf
      { stride := t.stride
        pif_index := t.pif_index
        paf_index := t.paf_index
        pif_min_scale := some t.pif_min_scale
        paf_min_distance := some t.paf_min_distance
        paf_max_distance := some t.paf_max_distance
        keypoints := d.keypoints
        skeleton := d.person_skeleton }

/-- factory.py `factory_decode` (lines 131-243).  Dispatches on the tuple
of head names; every matched branch reads `model.head_strides[-1]`
(IndexError on an empty list); an unmatched tuple raises the generic
`Exception('decoder unknown for head names: {}')` of line 243 (the message
formatting of the Python tuple is simplified to the comma-joined names). -/
def factory_decode (d : CocoData) (m : Model) (a : FactoryDecodeArgs) :
    Except DecodeError Decoder :=
  if m.head_names = ["cif"] then
    match m.head_strides.getLast? with
    | none => .error .indexError
    | some s => .ok (.pif { stride := s, head_index := 0 })
  else if m.head_names = ["cif", "caf", "caf25"] then
    match m.head_strides.getLast? with
    | none => .error .indexError
    | some s => .ok (decode_cifcaf_branch d a s)
  else if m.head_names = ["cif", "paf", "paf25"] then
    match m.head_strides.getLast? with
    | none => .error .indexError
    | some s => .ok (decode_cifpaf_branch d a s)
  else
    .error (.genericException
      ("decoder unknown for head names: " ++
        String.intercalate ", " m.head_names))

/-- The skeleton argument the constructed decoder was given (`none` for
`Pif`, which takes no skeleton). -/
def Decoder.skeleton_of : Decoder → Option (List (Nat × Nat))
  | .pif _ => none
  | .cifCaf c => some c.skeleton
  | .pafsDijkstra p => some p.skeleton

/-- The confidence_scales argument the constructed decoder was given
(`none`: not supplied, supplied as `None`, or a `Pif`). -/
def Decoder.confidence_scales_of : Decoder → Option (List ℚ)
  | .pif _ => none
  | .cifCaf c => c.confidence_scales
  | .pafsDijkstra p => p.confidence_scales

/-! ### Helper lemmas and sample inputs -/

/-- Whether an `Except` computation succeeded. -/
def exceptOk {ε α : Type} : Except ε α → Bool
  | .ok _ => true
  | .error _ => false

/-- Unfolding lemma: `configure` written as one case split, for proofs. -/
theorem configure_cases (args : Args) (cfg : DecoderConfig) :
    configure args cfg =
      (if args.force_complete_pose = true ∧
          resolved_keypoint_threshold args ≠ 0 then
        .error (.assertionFailed "args.keypoint_threshold == 0.0")
      else if args.seed_threshold < resolved_keypoint_threshold args then
        .error (.assertionFailed
          "args.seed_threshold >= args.keypoint_threshold")
      else
        .ok
          ((if args.decoder_workers = none ∧ 1 < args.batch_size.getD 1 ∧
                args.debug = false then
              { args with
                keypoint_threshold := some (resolved_keypoint_threshold args)
                decoder_workers := args.batch_size }
            else
              { args with
                keypoint_threshold :=
                  some (resolved_keypoint_threshold args) }),
           { cfg with
             cifcaf_paf_th := args.paf_th
             cifcaf_connection_method := args.connection_method
             cifcaf_force_complete := args.force_complete_pose
             pafs_dijkstra_paf_th := args.paf_th
             pafs_dijkstra_connection_method := args.connection_method
             pafs_dijkstra_force_complete := args.force_complete_pose
             pifhr_v_threshold := args.pif_th
             frontier_keypoint_threshold := resolved_keypoint_threshold args
             frontier_greedy := args.greedy })) := rfl

/-- A sample argument namespace with the CLI defaults of factory.py
lines 17-63 (incomplete poses allowed, nothing explicitly set). -/
def args_base : Args :=
  { seed_threshold := mkRat 1 5
    instance_threshold := 0
    keypoint_threshold := none
    decoder_workers := none
    dense_connections := false
    dense_coupling := mkRat 1 100
    paf_seeds := false
    force_complete_pose := false
    profile_decoder := false
    pif_th := mkRat 1 10
    paf_th := mkRat 1 10
    connection_method := "blend"
    greedy := false
    batch_size := none
    debug := false }

/-- A sample initial class-level configuration. -/
def cfg0 : DecoderConfig :=
  { cifcaf_paf_th := 0
    cifcaf_connection_method := "blend"
    cifcaf_force_complete := false
    pafs_dijkstra_paf_th := 0
    pafs_dijkstra_connection_method := "blend"
    pafs_dijkstra_force_complete := false
    pifhr_v_threshold := 0
    frontier_keypoint_threshold := 0
    frontier_greedy := false }

/-! ### Claims about `configure` -/

/-- C2: when the keypoint threshold is unset (`None`), `configure` resolves
it to 0.001 when incomplete poses are allowed and to exactly 0.0 when
force-complete-pose is enabled; an explicitly supplied keypoint threshold
is never replaced by the default rule, and the successful result carries
exactly the resolved value. -/
theorem configure_keypoint_default_rule (args : Args) (cfg : DecoderConfig) :
    (args.keypoint_threshold = none →
      resolved_keypoint_threshold args =
        (if args.force_complete_pose then 0 else mkRat 1 1000))
    ∧ (∀ v, args.keypoint_threshold = some v →
        resolved_keypoint_threshold args = v)
    ∧ (∀ a' c', configure args cfg = .ok (a', c') →
        a'.keypoint_threshold = some (resolved_keypoint_threshold args)) := by
  refine ⟨fun h => ?_, fun v h => ?_, fun a' c' h => ?_⟩
  · cases hf : args.force_complete_pose <;>
      simp [resolved_keypoint_threshold, h, hf]
  · simp [resolved_keypoint_threshold, h]
  · rw [configure_cases] at h
    split at h
    · exact absurd h (by simp)
    · split at h
      · exact absurd h (by simp)
      · rw [Except.ok.injEq, Prod.mk.injEq] at h
        obtain ⟨ha, -⟩ := h
        subst ha
        split <;> rfl

/-- C2 witness: with the CLI defaults (threshold unset, incomplete poses
allowed) the resolved keypoint threshold is 0.001, and an explicit 0.07 is
kept. -/
theorem configure_keypoint_default_rule_witness :
    resolved_keypoint_threshold args_base = mkRat 1 1000 ∧
    resolved_keypoint_threshold
      { args_base with keypoint_threshold := some (mkRat 7 100) } =
      mkRat 7 100 := by
  constructor
  · have h := (configure_keypoint_default_rule args_base cfg0).1 rfl
    simpa using h
  · exact (configure_keypoint_default_rule
      { args_base with keypoint_threshold := some (mkRat 7 100) } cfg0).2.1
      (mkRat 7 100) rfl

/-- C3: force-complete-pose combined with an explicitly supplied keypoint
threshold different from 0.0 makes `configure` fail (the Python assert at
line 89); the value is not silently corrected. -/
theorem configure_force_complete_nonzero_keypoint_fails (args : Args)
    (cfg : DecoderConfig) (v : ℚ) (hf : args.force_complete_pose = true)
    (hk : args.keypoint_threshold = some v) (hv : v ≠ 0) :
    configure args cfg =
      .error (.assertionFailed "args.keypoint_threshold == 0.0") := by
  have hr : resolved_keypoint_threshold args = v := by
    simp [resolved_keypoint_threshold, hk]
  rw [configure_cases, if_pos ⟨hf, hr ▸ hv⟩]

/-- C3 witness: force-complete-pose with explicit keypoint threshold 0.1
fails. -/
theorem configure_force_complete_nonzero_keypoint_fails_witness :
    configure
      { args_base with
          force_complete_pose := true
          keypoint_threshold := some (mkRat 1 10) } cfg0 =
      .error (.assertionFailed "args.keypoint_threshold == 0.0") :=
  configure_force_complete_nonzero_keypoint_fails _ cfg0 (mkRat 1 10) rfl rfl
    (by decide)

/-- C8: after every successful `configure`, the seed threshold is at least
the resolved keypoint threshold stored in the result (line 90), and
`configure` fails whenever the resolved keypoint threshold exceeds the
seed threshold. -/
theorem configure_seed_threshold_invariant (args : Args)
    (cfg : DecoderConfig) :
    (∀ a' c' v, configure args cfg = .ok (a', c') →
        a'.keypoint_threshold = some v → v ≤ a'.seed_threshold)
    ∧ (args.seed_threshold < resolved_keypoint_threshold args →
        exceptOk (configure args cfg) = false) := by
  constructor
  · intro a' c' v h hkp
    rw [configure_cases] at h
    split at h
    · exact absurd h (by simp)
    · split at h
      · exact absurd h (by simp)
      · rename_i hseed
        rw [Except.ok.injEq, Prod.mk.injEq] at h
        obtain ⟨ha, -⟩ := h
        subst ha
        have hv : v = resolved_keypoint_threshold args := by
          split at hkp <;> simpa using hkp.symm
        rw [hv]
        split <;> exact le_of_not_lt hseed
  · intro hlt
    rw [configure_cases]
    split
    · rfl
    · rfl

/-- C8 witness: seed threshold 0.2 with explicit keypoint threshold 0.5
fails; with the defaults the resolved keypoint threshold 0.001 is at most
the seed threshold 0.2 in the successful result. -/
theorem configure_seed_threshold_invariant_witness :
    exceptOk (configure
        { args_base with keypoint_threshold := some (mkRat 1 2) }
        cfg0) = false ∧
    mkRat 1 1000 ≤
      ({ args_base with keypoint_threshold := some (mkRat 1 1000) } :
        Args).seed_threshold := by
  constructor
  · exact (configure_seed_threshold_invariant
      { args_base with keypoint_threshold := some (mkRat 1 2) } cfg0).2
      (by decide)
  · exact (configure_seed_threshold_invariant args_base cfg0).1
      { args_base with keypoint_threshold := some (mkRat 1 1000) }
      { cfg0 with
          cifcaf_paf_th := mkRat 1 10
          cifcaf_connection_method := "blend"
          cifcaf_force_complete := false
          pafs_dijkstra_paf_th := mkRat 1 10
          pafs_dijkstra_connection_method := "blend"
          pafs_dijkstra_force_complete := false
          pifhr_v_threshold := mkRat 1 10
          frontier_keypoint_threshold := mkRat 1 1000
          frontier_greedy := false }
      (mkRat 1 1000) rfl rfl

/-- C10: `configure` sets the decoder worker count to the batch size
exactly when the worker count was unset, the batch size exceeds 1 and
debug mode is off (lines 97-100); in every other case the worker count is
left unchanged. -/
theorem configure_decoder_workers (args : Args) (cfg : DecoderConfig)
    (a' : Args) (c' : DecoderConfig) (h : configure args cfg = .ok (a', c')) :
    a'.decoder_workers =
      (if args.decoder_workers = none ∧ 1 < args.batch_size.getD 1 ∧
          args.debug = false
       then args.batch_size else args.decoder_workers) := by
  rw [configure_cases] at h
  split at h
  · exact absurd h (by simp)
  · split at h
    · exact absurd h (by simp)
    · rw [Except.ok.injEq, Prod.mk.injEq] at h
      obtain ⟨ha, -⟩ := h
      subst ha
      split <;> rfl

/-- C10 witness: with workers unset, batch size 8 and debug off, the
worker count becomes 8. -/
theorem configure_decoder_workers_witness :
    ({ args_base with batch_size := some 8 } : Args).decoder_workers = none
    ∧ (∀ a' c',
        configure { args_base with batch_size := some 8 } cfg0 = .ok (a', c') →
        a'.decoder_workers = some 8) := by
  refine ⟨rfl, fun a' c' h => ?_⟩
  have := configure_decoder_workers
    { args_base with batch_size := some 8 } cfg0 a' c' h
  simpa using this

/-- C1 counterexample: `configure` accepts a configuration whose instance
threshold (0) is strictly below the resolved keypoint threshold (1/2): the
code never compares the instance threshold with the keypoint threshold
(line 90 compares the seed threshold instead), so the claimed invariant
fails and no `InconsistentThresholds`-style failure occurs. -/
theorem configure_instance_threshold_counterexample :
    exceptOk (configure
      { args_base with
          seed_threshold := mkRat 1 1
          keypoint_threshold := some (mkRat 1 2) } cfg0) = true
    ∧ ({ args_base with
          seed_threshold := mkRat 1 1
          keypoint_threshold := some (mkRat 1 2) } : Args).instance_threshold
        < resolved_keypoint_threshold
            { args_base with
                seed_threshold := mkRat 1 1
                keypoint_threshold := some (mkRat 1 2) } := by
  exact ⟨rfl, by decide⟩

/-- C1 amended: the threshold invariant `configure` actually enforces is
between the seed threshold and the resolved keypoint threshold, not the
instance threshold: every accepted configuration has seed threshold ≥
resolved keypoint threshold, and a seed threshold below the resolved
keypoint threshold fails the assertion at line 90. -/
theorem configure_seed_not_instance_invariant (args : Args)
    (cfg : DecoderConfig) :
    (∀ a' c', configure args cfg = .ok (a', c') →
        resolved_keypoint_threshold args ≤ a'.seed_threshold)
    ∧ (args.force_complete_pose = false →
        args.seed_threshold < resolved_keypoint_threshold args →
        configure args cfg =
          .error (.assertionFailed
            "args.seed_threshold >= args.keypoint_threshold")) := by
  constructor
  · intro a' c' h
    rw [configure_cases] at h
    split at h
    · exact absurd h (by simp)
    · split at h
      · exact absurd h (by simp)
      · rename_i hseed
        rw [Except.ok.injEq, Prod.mk.injEq] at h
        obtain ⟨ha, -⟩ := h
        subst ha
        split <;> exact le_of_not_lt hseed
  · intro hf hlt
    rw [configure_cases]
    have h1 : ¬(args.force_complete_pose = true ∧
        resolved_keypoint_threshold args ≠ 0) := by
      rintro ⟨h1, -⟩
      rw [hf] at h1
      exact Bool.false_ne_true h1
    rw [if_neg h1, if_pos hlt]

/-- C1 amended witness: seed threshold 0.1 below explicit keypoint
threshold 0.3 fails the seed assertion. -/
theorem configure_seed_not_instance_invariant_witness :
    configure
      { args_base with
          seed_threshold := mkRat 1 10
          keypoint_threshold := some (mkRat 3 10) } cfg0 =
      .error (.assertionFailed
        "args.seed_threshold >= args.keypoint_threshold") :=
  (configure_seed_not_instance_invariant
    { args_base with
        seed_threshold := mkRat 1 10
        keypoint_threshold := some (mkRat 3 10) } cfg0).2 rfl (by decide)

/-- C9: `configure` is idempotent: re-running it on the arguments and
class-level configuration produced by a successful run succeeds and
changes nothing. -/
theorem configure_idempotent (args : Args) (cfg : DecoderConfig)
    (a1 : Args) (c1 : DecoderConfig)
    (h : configure args cfg = .ok (a1, c1)) :
    configure a1 c1 = .ok (a1, c1) := by
  rw [configure_cases] at h
  split at h
  · exact absurd h (by simp)
  · split at h
    · exact absurd h (by simp)
    · rename_i hforce hseed
      rw [Except.ok.injEq, Prod.mk.injEq] at h
      obtain ⟨ha, hc⟩ := h
      by_cases hw : args.decoder_workers = none ∧
          1 < args.batch_size.getD 1 ∧ args.debug = false
      · rw [if_pos hw] at ha
        obtain ⟨hw1, hw2, hw3⟩ := hw
        obtain ⟨b, hb⟩ : ∃ b, args.batch_size = some b := by
          cases hbs : args.batch_size with
          | none => rw [hbs] at hw2; norm_num at hw2
          | some b => exact ⟨b, rfl⟩
        subst ha
        subst hc
        rw [configure_cases]
        split
        · rename_i hcl
          exact absurd hcl hforce
        · split
          · rename_i hcl hcl2
            exact absurd hcl2 hseed
          · split
            · rename_i hcon
              obtain ⟨hcon1, -⟩ := hcon
              simp [hb] at hcon1
            · rfl
      · rw [if_neg hw] at ha
        subst ha
        subst hc
        rw [configure_cases]
        split
        · rename_i hcl
          exact absurd hcl hforce
        · split
          · rename_i hcl hcl2
            exact absurd hcl2 hseed
          · rfl

/-- C9 witness: re-running `configure` on the output of a successful run
with the CLI defaults returns the same output. -/
theorem configure_idempotent_witness :
    configure { args_base with keypoint_threshold := some (mkRat 1 1000) }
      { cfg0 with
          cifcaf_paf_th := mkRat 1 10
          cifcaf_connection_method := "blend"
          cifcaf_force_complete := false
          pafs_dijkstra_paf_th := mkRat 1 10
          pafs_dijkstra_connection_method := "blend"
          pafs_dijkstra_force_complete := false
          pifhr_v_threshold := mkRat 1 10
          frontier_keypoint_threshold := mkRat 1 1000
          frontier_greedy := false } =
      .ok ({ args_base with keypoint_threshold := some (mkRat 1 1000) },
        { cfg0 with
            cifcaf_paf_th := mkRat 1 10
            cifcaf_connection_method := "blend"
            cifcaf_force_complete := false
            pafs_dijkstra_paf_th := mkRat 1 10
            pafs_dijkstra_connection_method := "blend"
            pafs_dijkstra_force_complete := false
            pifhr_v_threshold := mkRat 1 10
            frontier_keypoint_threshold := mkRat 1 1000
            frontier_greedy := false }) :=
  configure_idempotent args_base cfg0 _ _ rfl

/-! ### Claims about `factory_decode` -/

/-- Mapping a constant function: `l.map (fun _ => b)` is `l.length` copies of `b`. -/
theorem map_const_replicate {α β : Type} (l : List α) (b : β) :
    l.map (fun _ => b) = List.replicate l.length b := by
  induction l with
  | nil => rfl
  | cons x xs ih => simp [List.replicate, ih]

/-- Which constructor a decoder was built with. -/
def Decoder.kind : Decoder → String
  | .pif _ => "pif"
  | .cifCaf _ => "cifcaf"
  | .pafsDijkstra _ => "pafs_dijkstra"

/-- Sample topology for witnesses (the claims hold for any topology). -/
def data0 : CocoData :=
  { keypoints := ["nose", "left_eye", "right_eye"]
    person_skeleton := [(1, 2), (2, 3)]
    denser_connections := [(1, 3)] }

/-- Sample model with the `('cif', 'caf', 'caf25')` heads, stride 8. -/
def model_cifcaf : Model :=
  { head_names := ["cif", "caf", "caf25"], head_strides := [mkRat 8 1] }

/-- Sample model with the `('cif', 'paf', 'paf25')` heads, stride 8. -/
def model_cifpaf : Model :=
  { head_names := ["cif", "paf", "paf25"], head_strides := [mkRat 8 1] }

/-- Sample model with an unrecognized head-name tuple. -/
def model_unknown : Model :=
  { head_names := ["cifdet"], head_strides := [mkRat 8 1] }

/-- C4 counterexample: at the unmatched head-name tuple ('cifdet',),
`factory_decode` raises the generic `Exception` of line 243 — not an
`UnsupportedTopology`-style error as the claim states. -/
theorem factory_decode_generic_exception_counterexample :
    factory_decode data0 model_unknown {} =
      .error (.genericException "decoder unknown for head names: cifdet")
    ∧ factory_decode data0 model_unknown {} ≠
      .error (.unsupportedTopology
        "decoder unknown for head names: cifdet") := by
  refine ⟨rfl, fun h => ?_⟩
  rw [show factory_decode data0 model_unknown {} =
      .error (.genericException "decoder unknown for head names: cifdet")
    from rfl] at h
  simp at h

/-- C4 amended: for every head-name tuple other than ('cif',),
('cif','caf','caf25') and ('cif','paf','paf25'), `factory_decode` raises
the generic `Exception` of line 243 whose message names the unrecognized
head names, and never returns a decoder; for each of the three supported
tuples (with a nonempty stride list) it returns a decoder. -/
theorem factory_decode_exhaustive_amended (d : CocoData) (m : Model)
    (a : FactoryDecodeArgs) :
    (m.head_names ≠ ["cif"] → m.head_names ≠ ["cif", "caf", "caf25"] →
      m.head_names ≠ ["cif", "paf", "paf25"] →
      factory_decode d m a =
        .error (.genericException
          ("decoder unknown for head names: " ++
            String.intercalate ", " m.head_names)))
    ∧ (m.head_strides ≠ [] →
        (m.head_names = ["cif"] ∨ m.head_names = ["cif", "caf", "caf25"] ∨
          m.head_names = ["cif", "paf", "paf25"]) →
        exceptOk (factory_decode d m a) = true) := by
  constructor
  · intro h1 h2 h3
    unfold factory_decode
    rw [if_neg h1, if_neg h2, if_neg h3]
  · intro hne hn
    cases hlast : m.head_strides.getLast? with
    | none => exact absurd (List.getLast?_eq_none_iff.mp hlast) hne
    | some s =>
      rcases hn with h | h | h <;>
        simp [factory_decode, h, hlast, exceptOk]

/-- C4 amended witness: the ('cifdet',) tuple yields the generic message
naming the tuple, and the ('cif','caf','caf25') tuple yields a decoder. -/
theorem factory_decode_exhaustive_amended_witness :
    factory_decode data0
        { head_names := ["cifdet2"], head_strides := [mkRat 8 1] } {} =
      .error (.genericException "decoder unknown for head names: cifdet2")
    ∧ exceptOk (factory_decode data0 model_cifcaf {}) = true := by
  constructor
  · exact (factory_decode_exhaustive_amended data0
      { head_names := ["cifdet2"], head_strides := [mkRat 8 1] } {}).1
      (by decide) (by decide) (by decide)
  · exact (factory_decode_exhaustive_amended data0 model_cifcaf {}).2
      (by decide) (Or.inr (Or.inl rfl))

/-- C5: with dense connections enabled, for both the ('cif','caf','caf25')
and the ('cif','paf','paf25') head tuples, the constructed decoder's
skeleton is the base skeleton concatenated with the denser connection set
and its confidence-scale list is 1.0 per base edge followed by the
dense-coupling multiplier per dense edge; with dense connections disabled
the skeleton is the base skeleton alone and no confidence-scale list is
supplied. -/
theorem factory_decode_dense_connections_skeleton (d : CocoData) (m : Model)
    (a : FactoryDecodeArgs) (s : ℚ) (dec : Decoder)
    (hn : m.head_names = ["cif", "caf", "caf25"] ∨
      m.head_names = ["cif", "paf", "paf25"])
    (hs : m.head_strides.getLast? = some s)
    (h : factory_decode d m a = .ok dec) :
    (a.dense_connections = true →
      dec.skeleton_of = some (d.person_skeleton ++ d.denser_connections) ∧
      dec.confidence_scales_of =
        some (List.replicate d.person_skeleton.length (1 : ℚ) ++
          List.replicate d.denser_connections.length a.dense_coupling))
    ∧ (a.dense_connections = false →
        dec.skeleton_of = some d.person_skeleton ∧
        dec.confidence_scales_of = none) := by
  rcases hn with hn | hn
  · rw [show factory_decode d m a = .ok (decode_cifcaf_branch d a s) by
      simp [factory_decode, hn, hs]] at h
    rw [Except.ok.injEq] at h
    subst h
    constructor
    · intro hd
      cases hp : a.paf_seeds <;>
        simp [decode_cifcaf_branch, hd, hp, Decoder.skeleton_of,
          Decoder.confidence_scales_of, dense_confidence_scales,
          map_const_replicate]
    · intro hd
      cases hp : a.paf_seeds <;>
        simp [decode_cifcaf_branch, hd, hp, Decoder.skeleton_of,
          Decoder.confidence_scales_of]
  · rw [show factory_decode d m a = .ok (decode_cifpaf_branch d a s) by
      simp [factory_decode, hn, hs]] at h
    rw [Except.ok.injEq] at h
    subst h
    constructor
    · intro hd
      simp [decode_cifpaf_branch, hd, Decoder.skeleton_of,
        Decoder.confidence_scales_of, dense_confidence_scales,
        map_const_replicate]
    · intro hd
      simp [decode_cifpaf_branch, hd, Decoder.skeleton_of,
        Decoder.confidence_scales_of]

/-- C5 witness: with dense connections and dense coupling 0.01 on the
sample topology (2 base edges, 1 dense edge), the caf-branch decoder got
skeleton base++dense and confidence scales [1, 1, 0.01]. -/
theorem factory_decode_dense_connections_skeleton_witness :
    (decode_cifcaf_branch data0
        { dense_coupling := mkRat 1 100, dense_connections := true }
        (mkRat 8 1)).skeleton_of = some [(1, 2), (2, 3), (1, 3)]
    ∧ (decode_cifcaf_branch data0
        { dense_coupling := mkRat 1 100, dense_connections := true }
        (mkRat 8 1)).confidence_scales_of =
      some [1, 1, mkRat 1 100] := by
  have h := (factory_decode_dense_connections_skeleton data0 model_cifcaf
    { dense_coupling := mkRat 1 100, dense_connections := true }
    (mkRat 8 1)
    (decode_cifcaf_branch data0
      { dense_coupling := mkRat 1 100, dense_connections := true }
      (mkRat 8 1))
    (Or.inl rfl) rfl rfl).1 rfl
  exact ⟨h.1, h.2⟩

/-- C6: for the ('cif','caf','caf25') head tuple, `factory_decode`
returns exactly one assembler: the Dijkstra-based `PafsDijkstra` when
paf-seeds is set and the greedy `CifCaf` otherwise. -/
theorem factory_decode_cifcaf_assembler_selection (d : CocoData) (m : Model)
    (a : FactoryDecodeArgs) (s : ℚ)
    (hn : m.head_names = ["cif", "caf", "caf25"])
    (hs : m.head_strides.getLast? = some s) :
    (a.paf_seeds = true →
      ∃ p, factory_decode d m a = .ok (.pafsDijkstra p))
    ∧ (a.paf_seeds = false →
      ∃ c, factory_decode d m a = .ok (.cifCaf c)) := by
  rw [show factory_decode d m a = .ok (decode_cifcaf_branch d a s) by
    simp [factory_decode, hn, hs]]
  constructor
  · intro hp
    refine ⟨{ stride := s
              paf_index := 1
              keypoints := d.keypoints
              skeleton :=
                if a.dense_connections then
                  d.person_skeleton ++ d.denser_connections
                else d.person_skeleton
              out_skeleton := d.person_skeleton
              confidence_scales :=
                if a.dense_connections then
                  some (dense_confidence_scales d a.dense_coupling)
                else none }, ?_⟩
    simp [decode_cifcaf_branch, hp]
  · intro hp
    refine ⟨{ stride := .single s
              pif_index := .single 0
              paf_index := .single 1
              keypoints := d.keypoints
              skeleton :=
                if a.dense_connections then
                  d.person_skeleton ++ d.denser_connections
                else d.person_skeleton
              out_skeleton := some d.person_skeleton
              confidence_scales :=
                if a.dense_connections then
                  some (dense_confidence_scales d a.dense_coupling)
                else none }, ?_⟩
    simp [decode_cifcaf_branch, hp]

/-- C6 witness: with paf-seeds set, the sample caf model yields a
pafs_dijkstra decoder; without it, a cifcaf decoder. -/
theorem factory_decode_cifcaf_assembler_selection_witness :
    (factory_decode data0 model_cifcaf { paf_seeds := true }).map
      Decoder.kind = .ok "pafs_dijkstra"
    ∧ (factory_decode data0 model_cifcaf {}).map
      Decoder.kind = .ok "cifcaf" := by
  constructor
  · obtain ⟨p, hp⟩ := (factory_decode_cifcaf_assembler_selection data0
      model_cifcaf { paf_seeds := true } (mkRat 8 1) rfl rfl).1 rfl
    rw [hp]
    rfl
  · obtain ⟨c, hc⟩ := (factory_decode_cifcaf_assembler_selection data0
      model_cifcaf {} (mkRat 8 1) rfl rfl).2 rfl
    rw [hc]
    rfl

/-- Evaluation of the multi-scale tables with the mirrored pass
(lines 185-197): 10-entry tables. -/
theorem cifpaf_tables_hflip_eq (a : FactoryDecodeArgs) (base : ℚ)
    (hms : a.multi_scale = true) (hh : a.multi_scale_hflip = true) :
    cifpaf_tables a base =
      { stride := .table ((([1, 3/2, 2, 3, 5] ++ [1, 3/2, 2, 3, 5]) :
            List ℚ).map (fun r => base * r))
        pif_index :=
          if a.dense_connections = false then
            .table [0, 3, 6, 9, 12, 15, 18, 21, 24, 27]
          else .table [0, 2, 4, 6, 8, 10, 12, 14, 16, 18]
        paf_index :=
          if a.dense_connections = false then
            .table [1, 4, 7, 10, 13, 16, 19, 22, 25, 28]
          else .table [1, 3, 5, 7, 9, 11, 13, 15, 17, 19]
        pif_min_scale := .table ([0, 12, 16, 24, 40] ++ [0, 12, 16, 24, 40])
        paf_min_distance :=
          .table ([0, 36, 48, 72, 120] ++ [0, 36, 48, 72, 120])
        paf_max_distance :=
          .table ([some 160, some 240, some 320, some 480, none] ++
            [some 160, some 240, some 320, some 480, none]) } := by
  unfold cifpaf_tables
  rw [if_pos ⟨hms, hh⟩]
  have hmap : (([0, 12, 16, 24, 40] ++ [0, 12, 16, 24, 40] : List ℚ)).map
      (fun v => v * 3) =
      ([0, 36, 48, 72, 120] ++ [0, 36, 48, 72, 120] : List ℚ) := by
    norm_num
  have hr3 : (List.range 10).map (fun v => v * 3) =
      [0, 3, 6, 9, 12, 15, 18, 21, 24, 27] := rfl
  have hr3o : (List.range 10).map (fun v => v * 3 + 1) =
      [1, 4, 7, 10, 13, 16, 19, 22, 25, 28] := rfl
  have hr2 : (List.range 10).map (fun v => v * 2) =
      [0, 2, 4, 6, 8, 10, 12, 14, 16, 18] := rfl
  have hr2o : (List.range 10).map (fun v => v * 2 + 1) =
      [1, 3, 5, 7, 9, 11, 13, 15, 17, 19] := rfl
  cases hd : a.dense_connections <;>
    simp [hd, hmap, hr3, hr3o, hr2, hr2o] <;> norm_num

/-- Evaluation of the multi-scale tables without the mirrored pass
(lines 198-210): 5-entry tables. -/
theorem cifpaf_tables_no_hflip_eq (a : FactoryDecodeArgs) (base : ℚ)
    (hms : a.multi_scale = true) (hh : a.multi_scale_hflip = false) :
    cifpaf_tables a base =
      { stride := .table (([1, 3/2, 2, 3, 5] : List ℚ).map
            (fun r => base * r))
        pif_index :=
          if a.dense_connections = false then .table [0, 3, 6, 9, 12]
          else .table [0, 2, 4, 6, 8]
        paf_index :=
          if a.dense_connections = false then .table [1, 4, 7, 10, 13]
          else .table [1, 3, 5, 7, 9]
        pif_min_scale := .table [0, 12, 16, 24, 40]
        paf_min_distance := .table [0, 36, 48, 72, 120]
        paf_max_distance :=
          .table [some 160, some 240, some 320, some 480, none] } := by
  unfold cifpaf_tables
  rw [if_neg (fun hcl => by rw [hh] at hcl; simp at hcl),
    if_pos ⟨hms, hh⟩]
  have hmap : (([0, 12, 16, 24, 40] : List ℚ)).map (fun v => v * 3) =
      ([0, 36, 48, 72, 120] : List ℚ) := by
    norm_num
  have hr3 : (List.range 5).map (fun v => v * 3) = [0, 3, 6, 9, 12] := rfl
  have hr3o : (List.range 5).map (fun v => v * 3 + 1) =
      [1, 4, 7, 10, 13] := rfl
  have hr2 : (List.range 5).map (fun v => v * 2) = [0, 2, 4, 6, 8] := rfl
  have hr2o : (List.range 5).map (fun v => v * 2 + 1) =
      [1, 3, 5, 7, 9] := rfl
  cases hd : a.dense_connections <;>
    simp [hd, hmap, hr3, hr3o, hr2, hr2o]

/-- C7: for the ('cif','paf','paf25') heads with multi-scale, the decoder
is a CifCaf whose per-resolution tables are: strides = base stride times
the resolutions (1, 1.5, 2, 3, 5), pif_min_scale = (0, 12, 16, 24, 40),
paf_min_distance entrywise 3 times pif_min_scale, paf_max_distance =
(160, 240, 320, 480, None) — each repeated twice with the mirrored pass
(10 entries) and once without it (5 entries) — and the pif/paf
channel-index lists are multiples of 3 with offsets 0 and 1 without dense
connections and multiples of 2 with dense connections. -/
theorem factory_decode_multiscale_tables (d : CocoData) (m : Model)
    (a : FactoryDecodeArgs) (s : ℚ)
    (hn : m.head_names = ["cif", "paf", "paf25"])
    (hs : m.head_strides.getLast? = some s)
    (hms : a.multi_scale = true) :
    (factory_decode d m a).map Decoder.kind = .ok "cifcaf"
    ∧ (∀ c, factory_decode d m a = .ok (.cifCaf c) →
        (a.multi_scale_hflip = true →
          c.stride = .table ((([1, 3/2, 2, 3, 5] ++ [1, 3/2, 2, 3, 5]) :
              List ℚ).map (fun r => s * r))
          ∧ c.pif_min_scale =
            some (.table ([0, 12, 16, 24, 40] ++ [0, 12, 16, 24, 40]))
          ∧ c.paf_min_distance =
            some (.table ([0, 36, 48, 72, 120] ++ [0, 36, 48, 72, 120]))
          ∧ c.paf_max_distance =
            some (.table ([some 160, some 240, some 320, some 480, none] ++
              [some 160, some 240, some 320, some 480, none]))
          ∧ (a.dense_connections = false →
              c.pif_index = .table [0, 3, 6, 9, 12, 15, 18, 21, 24, 27]
              ∧ c.paf_index = .table [1, 4, 7, 10, 13, 16, 19, 22, 25, 28])
          ∧ (a.dense_connections = true →
              c.pif_index = .table [0, 2, 4, 6, 8, 10, 12, 14, 16, 18]
              ∧ c.paf_index = .table [1, 3, 5, 7, 9, 11, 13, 15, 17, 19]))
        ∧ (a.multi_scale_hflip = false →
          c.stride = .table (([1, 3/2, 2, 3, 5] : List ℚ).map
              (fun r => s * r))
          ∧ c.pif_min_scale = some (.table [0, 12, 16, 24, 40])
          ∧ c.paf_min_distance = some (.table [0, 36, 48, 72, 120])
          ∧ c.paf_max_distance =
            some (.table [some 160, some 240, some 320, some 480, none])
          ∧ (a.dense_connections = false →
              c.pif_index = .table [0, 3, 6, 9, 12]
              ∧ c.paf_index = .table [1, 4, 7, 10, 13])
          ∧ (a.dense_connections = true →
              c.pif_index = .table [0, 2, 4, 6, 8]
              ∧ c.paf_index = .table [1, 3, 5, 7, 9]))) := by
  have hfd : factory_decode d m a = .ok (decode_cifpaf_branch d a s) := by
    simp [factory_decode, hn, hs]
  constructor
  · rw [hfd]
    cases hd : a.dense_connections <;>
      simp [decode_cifpaf_branch, hd, Decoder.kind, Except.map]
  · intro c h
    rw [hfd] at h
    have hc : c.stride = (cifpaf_tables a s).stride
        ∧ c.pif_index = (cifpaf_tables a s).pif_index
        ∧ c.paf_index = (cifpaf_tables a s).paf_index
        ∧ c.pif_min_scale = some (cifpaf_tables a s).pif_min_scale
        ∧ c.paf_min_distance = some (cifpaf_tables a s).paf_min_distance
        ∧ c.paf_max_distance = some (cifpaf_tables a s).paf_max_distance := by
      cases hd : a.dense_connections <;>
        (simp [decode_cifpaf_branch, hd] at h;
         subst h;
         exact ⟨rfl, rfl, rfl, rfl, rfl, rfl⟩)
    obtain ⟨h1, h2, h3, h4, h5, h6⟩ := hc
    constructor
    · intro hh
      rw [cifpaf_tables_hflip_eq a s hms hh] at h1 h2 h3 h4 h5 h6
      refine ⟨h1, h4, h5, h6, fun hd => ?_, fun hd => ?_⟩
      · rw [hd] at h2 h3
        simp at h2 h3
        exact ⟨h2, h3⟩
      · rw [hd] at h2 h3
        simp at h2 h3
        exact ⟨h2, h3⟩
    · intro hh
      rw [cifpaf_tables_no_hflip_eq a s hms hh] at h1 h2 h3 h4 h5 h6
      refine ⟨h1, h4, h5, h6, fun hd => ?_, fun hd => ?_⟩
      · rw [hd] at h2 h3
        simp at h2 h3
        exact ⟨h2, h3⟩
      · rw [hd] at h2 h3
        simp at h2 h3
        exact ⟨h2, h3⟩

/-- C7 witness: the sample paf model with multi-scale enabled yields a
cifcaf decoder (whose tables are given by the theorem at stride 8). -/
theorem factory_decode_multiscale_tables_witness :
    (factory_decode data0 model_cifpaf { multi_scale := true }).map
      Decoder.kind = .ok "cifcaf" :=
  (factory_decode_multiscale_tables data0 model_cifpaf
    { multi_scale := true } (mkRat 8 1) rfl rfl rfl).1

end OpenPifPaf
